import Mathlib

/-!
Verification of the Matterport importer extension
(`omni/isaac/matterport`, files `scripts/matterport_ext.py`,
`domains/matterport_importer.py`, `config/importer_cfg.py`).

The development shallowly embeds the control logic of the repository:
the USD stage is a finite map from prim paths to prim data, the
frame-tick import state machine of `MatterPortExtension.on_startup._on_update`
is a step function over an explicit extension state, external
asynchronous operations (asset conversion, simulation lifecycle) are
resolved through explicit oracle records, and Python exceptions are
represented by `Except` with the raising message.
-/

namespace Matterport

/-! ## String helpers (models of the Python `os.path` / `str` operations
used by the source; implemented structurally so they evaluate in the
kernel). -/

/-- Model of Python `str.lower` (sufficient for ASCII file extensions). -/
def lowerStr (s : String) : String := ⟨s.data.map Char.toLower⟩

/-- Model of Python `str.endswith`. -/
def strEndsWith (s t : String) : Bool := t.data.isSuffixOf s.data

/-- Model of POSIX `os.path.isabs`. -/
def isAbs (p : String) : Bool := ("/".data).isPrefixOf p.data

/-- Index of the last occurrence of `c` in `cs`, with `-1` meaning
"not found" (mirrors Python `str.rfind`). -/
def rfindI (cs : List Char) (c : Char) : Int :=
  match cs.reverse.findIdx? (fun x => x = c) with
  | some i => (cs.length : Int) - 1 - (i : Int)
  | none => -1

/-- Does `cs` hold a character other than `'.'` at an index `k` with
`i ≤ k < j`?  Used for the leading-dot rule of `os.path.splitext`. -/
def hasNonDotBetween (cs : List Char) (i j : Int) : Bool :=
  (List.range cs.length).any
    (fun k => decide (i ≤ (k : Int)) && decide ((k : Int) < j) && (cs.getD k '.' != '.'))

/-- Model of POSIX `os.path.splitext`: split at the last dot of the last
path component, unless the component consists only of leading dots. -/
def splitext (p : String) : String × String :=
  let cs := p.data
  let sepIndex := rfindI cs '/'
  let dotIndex := rfindI cs '.'
  if sepIndex < dotIndex ∧ hasNonDotBetween cs (sepIndex + 1) dotIndex then
    (⟨cs.take dotIndex.toNat⟩, ⟨cs.drop dotIndex.toNat⟩)
  else
    (p, "")

/-! ## USD stage model

`scripts/matterport_ext.py` mutates the stage only through
`DefinePrim`, `GetReferences().ClearReferences()/AddReference`,
`define_collision_properties`, `MakeInvisible` and the ground-plane
transform setters.  A prim therefore carries a type name, a reference
list, visibility, a collision flag and whether its transform has been
configured.  The stage is an association list from prim paths to prims
(first occurrence wins, as in a USD layer). -/

structure Prim where
  primType : String
  references : List String
  visible : Bool
  collision : Bool
  xformConfigured : Bool
deriving DecidableEq

/-- A freshly defined prim (`stage.DefinePrim(path, type)`). -/
def defaultPrim (t : String) : Prim :=
  { primType := t, references := [], visible := true, collision := false,
    xformConfigured := false }

def Stage := List (String × Prim)
deriving DecidableEq

/-- Model of `stage.GetPrimAtPath(p)` (valid-prim truthiness). -/
def getPrim : Stage → String → Option Prim
  | [], _ => none
  | (q, w) :: rest, p => if q = p then some w else getPrim rest p

/-- Overwrite (or append) the prim at path `p`. -/
def setPrim : Stage → String → Prim → Stage
  | [], p, v => [(p, v)]
  | (q, w) :: rest, p, v =>
      if q = p then (p, v) :: rest else (q, w) :: setPrim rest p v

/-- Number of stage entries at path `p`. -/
def countKey : Stage → String → Nat
  | [], _ => 0
  | (q, _) :: rest, p => (if q = p then 1 else 0) + countKey rest p

def stageKeys : Stage → List String
  | [] => []
  | (q, _) :: rest => q :: stageKeys rest

/-- A stage is well formed when no path occurs twice. -/
def StageWF (s : Stage) : Prop := (stageKeys s).Nodup

instance : DecidablePred StageWF := fun s =>
  inferInstanceAs (Decidable ((stageKeys s).Nodup))

/-! ## Scene-graph operations of `scripts/matterport_ext.py`

The functions below are direct translations of the module-level helpers.
A live stage is assumed to exist (the `_get_stage` `RuntimeError` for a
missing stage is outside the claims, which all presuppose a stage). -/

/-- The `MATTERPORT_CHILD_PRIM_NAME` suffix: the child prim path
`f"{prim_path}/{MATTERPORT_CHILD_PRIM_NAME}"`. -/
def matterportChild (primPath : String) : String := primPath ++ "/Matterport"

/-- Model of `if not stage.GetPrimAtPath(p): stage.DefinePrim(p, ...)`. -/
def definePrimIfAbsent (s : Stage) (p : String) (t : Prim) : Stage :=
  if (getPrim s p).isSome then s else setPrim s p t

/-- Model of `prim.GetReferences().ClearReferences()` followed by `AddReference(u)`:
the sequence
leaves the prim at `p` with exactly the given reference list. -/
def setReferences (s : Stage) (p : String) (refs : List String) : Stage :=
  match getPrim s p with
  | some pr => setPrim s p { pr with references := refs }
  | none => s

/-- Model of `UsdGeom.Imageable(prim).MakeInvisible()`. -/
def setVisibleFalse (s : Stage) (p : String) : Stage :=
  match getPrim s p with
  | some pr => setPrim s p { pr with visible := false }
  | none => s

/-- Model of `sim_utils.define_collision_properties(p, ...)`. -/
def setCollisionTrue (s : Stage) (p : String) : Stage :=
  match getPrim s p with
  | some pr => setPrim s p { pr with collision := true }
  | none => s

/-- Translation of `_ensure_container_prim`: define the container and its
`Matterport` child as `Xform`s when missing; return the child path. -/
def ensureContainerPrim (s : Stage) (primPath : String) : Stage × String :=
  let s1 := definePrimIfAbsent s primPath (defaultPrim "Xform")
  let child := matterportChild primPath
  (definePrimIfAbsent s1 child (defaultPrim "Xform"), child)

/-- Translation of `import_matterport_usd_reference`: ensure the container, clear the
child's references and add the new one; return the child path. -/
def importMatterportUsdReference (s : Stage) (primPath usdPath : String) :
    Stage × String :=
  let r := ensureContainerPrim s primPath
  (setReferences r.1 r.2 [usdPath], r.2)

/-- Translation of `apply_matterport_collision`: raise (`RuntimeError`, the spec's
`PrimNotFound`) when the `Matterport` child prim is missing, otherwise
enable collision on it and return its path.  The second component is
the (possibly unchanged) stage. -/
def applyMatterportCollision (s : Stage) (primPath : String) :
    Except String String × Stage :=
  let child := matterportChild primPath
  match getPrim s child with
  | none =>
      (Except.error ("Matterport prim not found at '" ++ child ++ "'. Import USD first."), s)
  | some pr =>
      (Except.ok child, setPrim s child { pr with collision := true })

/-- Translation of `ensure_hidden_ground_plane`: define the container `Xform` and the
`Plane` cube when missing (configuring its transform on creation), then
make the plane invisible and collidable.  The trailing
`MakeInvisible` / `define_collision_properties` calls run on every
invocation; their exceptions are caught and logged in the source, and
the external operations themselves are modelled as succeeding. -/
def ensureHiddenGroundPlane (s : Stage) (path : String) : Stage :=
  let planePath := path ++ "/Plane"
  let s1 := definePrimIfAbsent s path (defaultPrim "Xform")
  let s2 := definePrimIfAbsent s1 planePath
    { defaultPrim "Cube" with xformConfigured := true }
  setCollisionTrue (setVisibleFalse s2 planePath) planePath

/-! ## Converter and importer (`domains/matterport_importer.py`)

The external `omni.kit.asset_converter` task is resolved through a
`ConvOutcome` oracle (its success flag, status code and error message).
The filesystem is the list of existing file paths
(`os.path.exists` / `os.path.isfile`). -/

/-- Outcome of the external asset-converter task: `success` is the
value of `task.wait_until_finished()`, `statusCode` / `errorMessage`
the values of `task.get_status()` / `task.get_error_message()`.  A
successful conversion produces the destination file. -/
structure ConvOutcome where
  success : Bool
  statusCode : Nat
  errorMessage : String
deriving DecidableEq

/-- Translation of `MatterportConverter.convert_asset_to_usd`: derive the destination
path, run the converter task, and on failure log status and message —
the method never raises and never inspects the result further.
Returns the filesystem after conversion and the emitted error logs. -/
def convertAssetToUsd (inputObj : String) (fs : List String) (oc : ConvOutcome) :
    List String × List String :=
  let dst := (splitext inputObj).1 ++ ".usd"
  if oc.success then (dst :: fs, [])
  else
    (fs,
      ["[AssetConverter] Failed to convert " ++ inputObj ++ " -> " ++ dst ++
        " (status=" ++ toString oc.statusCode ++ "): " ++ oc.errorMessage])

instance {ε α : Type} [DecidableEq ε] [DecidableEq α] : DecidableEq (Except ε α) :=
  fun a b =>
    match a, b with
    | Except.ok x, Except.ok y =>
        if h : x = y then Decidable.isTrue (congrArg Except.ok h)
        else Decidable.isFalse (fun hc => h (Except.ok.inj hc))
    | Except.error x, Except.error y =>
        if h : x = y then Decidable.isTrue (congrArg Except.error h)
        else Decidable.isFalse (fun hc => h (Except.error.inj hc))
    | Except.ok _, Except.error _ => Decidable.isFalse (fun hc => Except.noConfusion hc)
    | Except.error _, Except.ok _ => Decidable.isFalse (fun hc => Except.noConfusion hc)

/-- Result of `MatterportImporter._import_matterport_terrain_async`. -/
structure TerrainRes where
  /-- Success marker (`Except.ok`), or the message of the raised exception. -/
  result : Except String Unit
  /-- Derived native-format path (`base + ".usd"` for `.obj` sources). -/
  usdPath : String
  /-- Filesystem after the call. -/
  fs : List String
  /-- Whether `converter.convert_asset_to_usd` was awaited. -/
  converterInvoked : Bool
  /-- Error log lines emitted by the converter. -/
  logs : List String
deriving DecidableEq

/-- Translation of `MatterportImporter._import_matterport_terrain_async`: derive the
`.usd` counterpart, convert only when it is absent and the source is an
`.obj`, then raise `FileNotFoundError` when the `.usd` is still absent;
otherwise the terrain is imported (stage effects of the external
`TerrainImporter.import_usd` are modelled at the `import_asset` level). -/
def importMatterportTerrainAsync (objFilepath : String) (fs : List String)
    (oc : ConvOutcome) : TerrainRes :=
  let ext := (splitext objFilepath).2
  let usdPath := if lowerStr ext = ".obj" then (splitext objFilepath).1 ++ ".usd"
                 else objFilepath
  let conv :=
    if usdPath ∉ fs ∧ lowerStr ext = ".obj" then
      let c := convertAssetToUsd objFilepath fs oc
      (c.1, c.2, true)
    else (fs, [], false)
  if usdPath ∉ conv.1 then
    { result := Except.error ("USD file not found: " ++ usdPath),
      usdPath := usdPath, fs := conv.1, converterInvoked := conv.2.2,
      logs := conv.2.1 }
  else
    { result := Except.ok (), usdPath := usdPath, fs := conv.1,
      converterInvoked := conv.2.2, logs := conv.2.1 }

/-! ## Programmatic entry point `import_matterport_asset_async`
(`scripts/matterport_ext.py`, lines 128–175)

The global `SimulationContext` singleton is a boolean (whether an
instance exists), and the side effects on the simulation lifecycle are
recorded in an explicit effect record.  External lifecycle awaits
(`initialize`/`reset`/`pause`) are modelled as succeeding; the stage
effect of the external `TerrainImporter.import_usd` (a reference to the
imported USD at `{prim_path}/Matterport`) is modelled with the same
reference-import used by the fast path. -/

structure AsyncWorld where
  fs : List String
  stage : Stage
  simInstance : Bool
deriving DecidableEq

/-- Side effects of one `import_matterport_asset_async` call. -/
structure AsyncEff where
  simCleared : Bool
  simCreated : Bool
  simInitialized : Bool
  simReset : Bool
  simPaused : Bool
  usedUsdReference : Bool
  usedImporter : Bool
  converterInvoked : Bool
deriving DecidableEq

def noEff : AsyncEff :=
  { simCleared := false, simCreated := false, simInitialized := false,
    simReset := false, simPaused := false, usedUsdReference := false,
    usedImporter := false, converterInvoked := false }

structure AsyncRes where
  /-- Returned Matterport prim path, or the raised exception message. -/
  outcome : Except String String
  world : AsyncWorld
  eff : AsyncEff
deriving DecidableEq

/-- Relative-path resolution of `import_matterport_asset_async`:
`os.path.join(resolve_relative_to, input_path)` is used only when the
input is relative and the candidate is a file. -/
def resolveAsync (inputPath : String) (rel : Option String) (fs : List String) :
    String :=
  match rel with
  | some base =>
      if isAbs inputPath then inputPath
      else
        let candidate := base ++ "/" ++ inputPath
        if candidate ∈ fs then candidate else inputPath
  | none => inputPath

/-- Translation of `import_matterport_asset_async`.  Note that the function takes no
extension state: it is independent of the UI job guard
`_import_running`. -/
def importMatterportAssetAsync (primPath inputPath : String)
    (groundplane manageSimulation : Bool) (rel : Option String)
    (oc : ConvOutcome) (w : AsyncWorld) : AsyncRes :=
  if inputPath = "" then
    { outcome := Except.error "input_path must be provided", world := w, eff := noEff }
  else
    let resolved := resolveAsync inputPath rel w.fs
    let w1 := if manageSimulation then { w with simInstance := true } else w
    let e1 := { noEff with simCleared := manageSimulation && w.simInstance,
                           simCreated := manageSimulation,
                           simInitialized := manageSimulation }
    if strEndsWith (lowerStr resolved) ".usd" then
      let st1 := (importMatterportUsdReference w1.stage primPath resolved).1
      let st2 := if groundplane then ensureHiddenGroundPlane st1 "/World/GroundPlane"
                 else st1
      let st3 := (applyMatterportCollision st2 primPath).2
      { outcome := Except.ok (matterportChild primPath),
        world := { w1 with stage := st3 },
        eff := { e1 with usedUsdReference := true,
                         simReset := manageSimulation,
                         simPaused := manageSimulation } }
    else
      if primPath = "" then
        { outcome := Except.error "prim_path must be specified in TerrainImporterCfg",
          world := w1, eff := e1 }
      else
        let tr := importMatterportTerrainAsync resolved w1.fs oc
        match tr.result with
        | Except.error e =>
            { outcome := Except.error e,
              world := { w1 with fs := tr.fs },
              eff := { e1 with usedImporter := true,
                               converterInvoked := tr.converterInvoked } }
        | Except.ok _ =>
            let st1 := (importMatterportUsdReference w1.stage primPath tr.usdPath).1
            let st2 := (applyMatterportCollision st1 primPath).2
            { outcome := Except.ok (matterportChild primPath),
              world := { w1 with fs := tr.fs, stage := st2 },
              eff := { e1 with usedImporter := true,
                               converterInvoked := tr.converterInvoked,
                               simReset := manageSimulation,
                               simPaused := manageSimulation } }

/-! ## Frame-tick import state machine
(`MatterPortExtension.on_startup._on_update`, lines 246–317)

The Python state is the string stored in `self._import_state`; the
extension state mirrors the instance attributes the callback touches.
Per-tick outcomes of the external operations are an explicit
`TickEnv` oracle: whether constructing the simulation context or the
importer raised (`ctorExc`), whether scheduling the coroutine raised
(`issueExc`), and the result of polling the pending future
(`futureDone` / `futureExc`).  A step either returns the new state or
an error message paired with the state as mutated up to the raise —
exactly what the `except` handler of `_on_update` observes. -/

inductive IState where
  | init_sim | wait_init | create_importer | wait_import
  | reset | wait_reset | pause | wait_pause | done
deriving DecidableEq

/-- Kind of coroutine held in `self._import_future`. -/
inductive FutKind where
  | initSim | loadWorld | resetSim | pauseSim
deriving DecidableEq

/-- Position of a state in the machine's order. -/
def IState.idx : IState → Nat
  | .init_sim => 0
  | .wait_init => 1
  | .create_importer => 2
  | .wait_import => 3
  | .reset => 4
  | .wait_reset => 5
  | .pause => 6
  | .wait_pause => 7
  | .done => 8

def IState.isWait : IState → Bool
  | .wait_init | .wait_import | .wait_reset | .wait_pause => true
  | _ => false

/-- The attributes of `MatterPortExtension` read or written by
`_on_update` and `_start_import`. -/
structure ExtState where
  running : Bool
  state : Option IState
  future : Option FutKind
  sim : Option Nat
  importer : Bool
  inputFile : String
  primPath : String
  btnEnabled : Bool
deriving DecidableEq

/-- Per-tick oracle for the external operations. -/
structure TickEnv where
  /-- Identity of a freshly constructed `SimulationContext`. -/
  simId : Nat
  /-- Exception raised while constructing the simulation context or the
  `MatterportImporter`, if any. -/
  ctorExc : Option String
  /-- Exception raised by `run_coroutine`, if any. -/
  issueExc : Option String
  /-- Value of `self._import_future.done()`. -/
  futureDone : Bool
  /-- Value of `self._import_future.exception()`. -/
  futureExc : Option String
deriving DecidableEq

/-- A tick-step result: the new state, or the raised message together
with the state as mutated before the raise. -/
abbrev TickRes := Except (String × ExtState) ExtState

/-- The `init_sim` branch: clear/recreate the simulation context and issue
its initialization coroutine. -/
def stepInitSim (s : ExtState) (env : TickEnv) : TickRes :=
  match env.ctorExc with
  | some e => Except.error (e, s)
  | none =>
      let s1 := { s with sim := some env.simId }
      match env.issueExc with
      | some e => Except.error (e, s1)
      | none => Except.ok { s1 with future := some FutKind.initSim,
                                    state := some IState.wait_init }

/-- The `create_importer` branch: construct the importer (its
`_minimal_terrain_importer_init` raises `ValueError` for an empty
`prim_path`) and issue `load_world_async`. -/
def stepCreateImporter (s : ExtState) (env : TickEnv) : TickRes :=
  if s.primPath = "" then
    Except.error ("prim_path must be specified in TerrainImporterCfg", s)
  else
    match env.ctorExc with
    | some e => Except.error (e, s)
    | none =>
        let s1 := { s with importer := true }
        match env.issueExc with
        | some e => Except.error (e, s1)
        | none => Except.ok { s1 with future := some FutKind.loadWorld,
                                      state := some IState.wait_import }

/-- The `reset` / `pause` branches: issue a coroutine on `self._sim`
(`AttributeError` when it is `None`). -/
def stepIssueSim (s : ExtState) (env : TickEnv) (k : FutKind) (next : IState) :
    TickRes :=
  match s.sim with
  | none => Except.error ("NoneType object has no coroutine attribute", s)
  | some _ =>
      match env.issueExc with
      | some e => Except.error (e, s)
      | none => Except.ok { s with future := some k, state := some next }

/-- The `wait_*` branches: poll the pending future once; re-raise its
exception, otherwise advance on completion. -/
def stepWait (s : ExtState) (env : TickEnv) (next : IState) : TickRes :=
  match s.future with
  | none => Except.ok s
  | some _ =>
      if env.futureDone then
        match env.futureExc with
        | some e => Except.error (e, s)
        | none => Except.ok { s with future := none, state := some next }
      else Except.ok s

/-- Body of the `try` block of `_on_update`: dispatch on
`self._import_state`. -/
def tickBody (s : ExtState) (env : TickEnv) : TickRes :=
  match s.state with
  | some IState.init_sim => stepInitSim s env
  | some IState.wait_init => stepWait s env IState.create_importer
  | some IState.create_importer => stepCreateImporter s env
  | some IState.wait_import => stepWait s env IState.reset
  | some IState.reset => stepIssueSim s env FutKind.resetSim IState.wait_reset
  | some IState.wait_reset => stepWait s env IState.pause
  | some IState.pause => stepIssueSim s env FutKind.pauseSim IState.wait_pause
  | some IState.wait_pause => stepWait s env IState.done
  | some IState.done => Except.ok { s with running := false, btnEnabled := true }
  | none => Except.ok s

/-- Translation of `_on_update`: return immediately when no job is running; otherwise
run one dispatch step with every exception caught — the handler logs,
clears `self._import_running` and re-enables the import button.  The
callback is a total function: no exception ever escapes it. -/
def onUpdate (s : ExtState) (env : TickEnv) : ExtState :=
  if s.running then
    match tickBody s env with
    | Except.ok s' => s'
    | Except.error (_, sErr) => { sErr with running := false, btnEnabled := true }
  else s

/-- Units of work (`run_coroutine` issues plus completed-future polls)
performed by one tick, mirroring `tickBody` branch by branch. -/
def tickWork (s : ExtState) (env : TickEnv) : Nat :=
  if s.running then
    match s.state with
    | some IState.init_sim =>
        if env.ctorExc.isNone && env.issueExc.isNone then 1 else 0
    | some IState.create_importer =>
        if s.primPath = "" then 0
        else if env.ctorExc.isNone && env.issueExc.isNone then 1 else 0
    | some IState.reset | some IState.pause =>
        if s.sim.isSome && env.issueExc.isNone then 1 else 0
    | some IState.wait_init | some IState.wait_import
    | some IState.wait_reset | some IState.wait_pause =>
        if s.future.isSome then 1 else 0
    | some IState.done => 0
    | none => 0
  else 0

/-- Structural invariant of a live job: the state string is set, wait
states hold exactly the one pending future and non-wait states hold
none (`self._import_future` is cleared before every advance out of a
wait state), and from `wait_init` on the simulation handle is set. -/
def jobInvar (s : ExtState) : Prop :=
  ∃ st, s.state = some st ∧
    (st.isWait = true → s.future.isSome = true) ∧
    (st.isWait = false → s.future = none) ∧
    (1 ≤ st.idx → s.sim.isSome = true)

/-! ## `_start_import` (lines 411–446) -/

/-- Environment of a `_start_import` call: the extension directory used
for relative resolution and the filesystem. -/
structure StartEnv where
  extPath : String
  fs : List String
deriving DecidableEq

inductive StartOutcome where
  /-- Case `self._input_file` empty: warn and return. -/
  | noInput
  /-- Case `.usd` source: the synchronous `_simple_import_usd` ran. -/
  | fastPath
  /-- Case `self._import_running` set: warn and return. -/
  | rejected
  /-- A new state-machine job was armed. -/
  | started
deriving DecidableEq

/-- Relative-path resolution of `_start_import`:
`os.path.join(ext_path, "data", input)` replaces the input only when
the input is relative and the candidate is a file. -/
def resolveStart (inputFile : String) (env : StartEnv) : String :=
  if isAbs inputFile then inputFile
  else
    let candidate := env.extPath ++ "/data/" ++ inputFile
    if candidate ∈ env.fs then candidate else inputFile

/-- Translation of `_start_import`.  The path resolution mutates `self._input_file`
before any guard; the `.usd` fast path runs before the
`self._import_running` re-entrancy check, which protects only the
state-machine ("advanced") path. -/
def startImport (s : ExtState) (env : StartEnv) (stage : Stage) :
    ExtState × Stage × StartOutcome :=
  if s.inputFile = "" then (s, stage, StartOutcome.noInput)
  else
    let resolved := resolveStart s.inputFile env
    let s1 := { s with inputFile := resolved }
    if strEndsWith (lowerStr resolved) ".usd" then
      (s1, (importMatterportUsdReference stage s1.primPath resolved).1,
        StartOutcome.fastPath)
    else if s1.running then (s1, stage, StartOutcome.rejected)
    else
      ({ s1 with running := true, state := some IState.init_sim,
                 future := none, btnEnabled := false },
        stage, StartOutcome.started)


/-! ## Basic lemmas about the stage model -/

theorem string_data_append (s t : String) : (s ++ t).data = s.data ++ t.data := by
  cases s; cases t; rfl

theorem string_append_ne_self (s t : String) (h : t.data ≠ []) : s ++ t ≠ s := by
  intro heq
  have hd : (s ++ t).data = s.data := congrArg String.data heq
  rw [string_data_append] at hd
  have hlen : s.data.length + t.data.length = s.data.length := by
    have := congrArg List.length hd
    simpa [List.length_append] using this
  have ht : t.data.length = 0 := by omega
  exact h (List.length_eq_zero.mp ht)

theorem getPrim_setPrim_self (s : Stage) (p : String) (v : Prim) :
    getPrim (setPrim s p v) p = some v := by
  induction s with
  | nil => simp [setPrim, getPrim]
  | cons e rest ih =>
    obtain ⟨q, w⟩ := e
    by_cases h : q = p <;> simp [setPrim, getPrim, h, ih]

theorem getPrim_setPrim_ne (s : Stage) (p q : String) (v : Prim) (h : q ≠ p) :
    getPrim (setPrim s p v) q = getPrim s q := by
  induction s with
  | nil => simp [setPrim, getPrim, Ne.symm h]
  | cons e rest ih =>
    obtain ⟨r, w⟩ := e
    by_cases hr : r = p
    · subst hr
      simp [setPrim, getPrim, Ne.symm h]
    · simp [setPrim, getPrim, hr, ih]

theorem setPrim_same (s : Stage) (p : String) (v : Prim)
    (h : getPrim s p = some v) : setPrim s p v = s := by
  induction s with
  | nil => simp [getPrim] at h
  | cons e rest ih =>
    obtain ⟨q, w⟩ := e
    by_cases hq : q = p
    · subst hq
      simp [getPrim] at h
      simp [setPrim, h]
    · simp [getPrim, hq] at h
      simp [setPrim, hq, ih h]

theorem stageKeys_setPrim_mem (s : Stage) (p : String) (v : Prim)
    (h : p ∈ stageKeys s) : stageKeys (setPrim s p v) = stageKeys s := by
  induction s with
  | nil => simp [stageKeys] at h
  | cons e rest ih =>
    obtain ⟨q, w⟩ := e
    by_cases hq : q = p
    · subst hq
      simp [setPrim, stageKeys]
    · have hp : p ∈ stageKeys rest := by
        simp [stageKeys] at h
        rcases h with h | h
        · exact absurd h.symm hq
        · exact h
      simp [setPrim, hq, stageKeys, ih hp]

theorem stageKeys_setPrim_not_mem (s : Stage) (p : String) (v : Prim)
    (h : p ∉ stageKeys s) : stageKeys (setPrim s p v) = stageKeys s ++ [p] := by
  induction s with
  | nil => simp [setPrim, stageKeys]
  | cons e rest ih =>
    obtain ⟨q, w⟩ := e
    simp [stageKeys] at h
    have hq : ¬ q = p := fun hqp => h.1 hqp.symm
    simp [setPrim, hq, stageKeys, ih h.2]

theorem stageWF_setPrim (s : Stage) (p : String) (v : Prim)
    (h : StageWF s) : StageWF (setPrim s p v) := by
  unfold StageWF at h ⊢
  by_cases hp : p ∈ stageKeys s
  · rw [stageKeys_setPrim_mem s p v hp]; exact h
  · rw [stageKeys_setPrim_not_mem s p v hp]
    simp [List.nodup_append, h, hp]

theorem countKey_eq_zero_of_not_mem (s : Stage) (p : String)
    (h : p ∉ stageKeys s) : countKey s p = 0 := by
  induction s with
  | nil => simp [countKey]
  | cons e rest ih =>
    obtain ⟨q, w⟩ := e
    simp [stageKeys] at h
    have hq : ¬ q = p := fun hqp => h.1 hqp.symm
    simp [countKey, hq, ih h.2]

theorem countKey_le_one (s : Stage) (p : String) (h : StageWF s) :
    countKey s p ≤ 1 := by
  induction s with
  | nil => simp [countKey]
  | cons e rest ih =>
    obtain ⟨q, w⟩ := e
    unfold StageWF at h
    simp [stageKeys, List.nodup_cons] at h
    by_cases hq : q = p
    · subst hq
      simp [countKey, countKey_eq_zero_of_not_mem rest q h.1]
    · simp [countKey, hq]
      exact ih h.2

theorem one_le_countKey (s : Stage) (p : String) (v : Prim)
    (h : getPrim s p = some v) : 1 ≤ countKey s p := by
  induction s with
  | nil => simp [getPrim] at h
  | cons e rest ih =>
    obtain ⟨q, w⟩ := e
    by_cases hq : q = p
    · simp [countKey, hq]
    · simp [getPrim, hq] at h
      simp [countKey, hq]
      exact ih h

/-! ## Lemmas about the scene-graph combinators -/

theorem definePrimIfAbsent_isSome_self (s : Stage) (p : String) (t : Prim) :
    (getPrim (definePrimIfAbsent s p t) p).isSome = true := by
  unfold definePrimIfAbsent
  by_cases h : (getPrim s p).isSome
  · simp [h]
  · simp [h, getPrim_setPrim_self]

theorem definePrimIfAbsent_ne (s : Stage) (p q : String) (t : Prim) (h : q ≠ p) :
    getPrim (definePrimIfAbsent s p t) q = getPrim s q := by
  unfold definePrimIfAbsent
  by_cases hp : (getPrim s p).isSome
  · simp [hp]
  · simp [hp, getPrim_setPrim_ne s p q t h]

theorem definePrimIfAbsent_of_isSome (s : Stage) (p : String) (t : Prim)
    (h : (getPrim s p).isSome = true) : definePrimIfAbsent s p t = s := by
  simp [definePrimIfAbsent, h]

theorem stageWF_definePrimIfAbsent (s : Stage) (p : String) (t : Prim)
    (h : StageWF s) : StageWF (definePrimIfAbsent s p t) := by
  unfold definePrimIfAbsent
  by_cases hp : (getPrim s p).isSome
  · simpa [hp] using h
  · simpa [hp] using stageWF_setPrim s p t h

theorem getPrim_setReferences_self (s : Stage) (p : String) (refs : List String)
    (pr : Prim) (h : getPrim s p = some pr) :
    getPrim (setReferences s p refs) p = some { pr with references := refs } := by
  simp [setReferences, h, getPrim_setPrim_self]

theorem getPrim_setReferences_ne (s : Stage) (p q : String) (refs : List String)
    (h : q ≠ p) : getPrim (setReferences s p refs) q = getPrim s q := by
  unfold setReferences
  cases hg : getPrim s p with
  | none => rfl
  | some pr => simp [getPrim_setPrim_ne s p q _ h]

theorem setReferences_fix (s : Stage) (p : String) (refs : List String) (pr : Prim)
    (h : getPrim s p = some pr) (hr : pr.references = refs) :
    setReferences s p refs = s := by
  have hpr : { pr with references := refs } = pr := by
    cases pr; simp_all
  unfold setReferences
  rw [h]
  show setPrim s p { pr with references := refs } = s
  rw [hpr]
  exact setPrim_same s p pr h

theorem stageWF_setReferences (s : Stage) (p : String) (refs : List String)
    (h : StageWF s) : StageWF (setReferences s p refs) := by
  unfold setReferences
  cases getPrim s p with
  | none => exact h
  | some pr => exact stageWF_setPrim _ _ _ h

theorem getPrim_setVisibleFalse_self (s : Stage) (p : String) (pr : Prim)
    (h : getPrim s p = some pr) :
    getPrim (setVisibleFalse s p) p = some { pr with visible := false } := by
  simp [setVisibleFalse, h, getPrim_setPrim_self]

theorem getPrim_setVisibleFalse_ne (s : Stage) (p q : String) (h : q ≠ p) :
    getPrim (setVisibleFalse s p) q = getPrim s q := by
  unfold setVisibleFalse
  cases hg : getPrim s p with
  | none => rfl
  | some pr => simp [getPrim_setPrim_ne s p q _ h]

theorem setVisibleFalse_fix (s : Stage) (p : String) (pr : Prim)
    (h : getPrim s p = some pr) (hv : pr.visible = false) :
    setVisibleFalse s p = s := by
  have hpr : { pr with visible := false } = pr := by
    cases pr; simp_all
  unfold setVisibleFalse
  rw [h]
  show setPrim s p { pr with visible := false } = s
  rw [hpr]
  exact setPrim_same s p pr h

theorem stageWF_setVisibleFalse (s : Stage) (p : String)
    (h : StageWF s) : StageWF (setVisibleFalse s p) := by
  unfold setVisibleFalse
  cases getPrim s p with
  | none => exact h
  | some pr => exact stageWF_setPrim _ _ _ h

theorem getPrim_setCollisionTrue_self (s : Stage) (p : String) (pr : Prim)
    (h : getPrim s p = some pr) :
    getPrim (setCollisionTrue s p) p = some { pr with collision := true } := by
  simp [setCollisionTrue, h, getPrim_setPrim_self]

theorem getPrim_setCollisionTrue_ne (s : Stage) (p q : String) (h : q ≠ p) :
    getPrim (setCollisionTrue s p) q = getPrim s q := by
  unfold setCollisionTrue
  cases hg : getPrim s p with
  | none => rfl
  | some pr => simp [getPrim_setPrim_ne s p q _ h]

theorem setCollisionTrue_fix (s : Stage) (p : String) (pr : Prim)
    (h : getPrim s p = some pr) (hc : pr.collision = true) :
    setCollisionTrue s p = s := by
  have hpr : { pr with collision := true } = pr := by
    cases pr; simp_all
  unfold setCollisionTrue
  rw [h]
  show setPrim s p { pr with collision := true } = s
  rw [hpr]
  exact setPrim_same s p pr h

theorem stageWF_setCollisionTrue (s : Stage) (p : String)
    (h : StageWF s) : StageWF (setCollisionTrue s p) := by
  unfold setCollisionTrue
  cases getPrim s p with
  | none => exact h
  | some pr => exact stageWF_setPrim _ _ _ h

/-! ## Lemmas about the container / reference import -/

theorem matterportChild_ne (p : String) : matterportChild p ≠ p :=
  string_append_ne_self p "/Matterport" (by decide)

theorem ensureContainerPrim_snd (s : Stage) (p : String) :
    (ensureContainerPrim s p).2 = matterportChild p := rfl

theorem ensureContainerPrim_child_isSome (s : Stage) (p : String) :
    (getPrim (ensureContainerPrim s p).1 (matterportChild p)).isSome = true := by
  unfold ensureContainerPrim
  exact definePrimIfAbsent_isSome_self _ _ _

theorem ensureContainerPrim_container_isSome (s : Stage) (p : String) :
    (getPrim (ensureContainerPrim s p).1 p).isSome = true := by
  unfold ensureContainerPrim
  rw [definePrimIfAbsent_ne _ _ _ _ (Ne.symm (matterportChild_ne p))]
  exact definePrimIfAbsent_isSome_self _ _ _

theorem stageWF_ensureContainerPrim (s : Stage) (p : String) (h : StageWF s) :
    StageWF (ensureContainerPrim s p).1 := by
  unfold ensureContainerPrim
  exact stageWF_definePrimIfAbsent _ _ _ (stageWF_definePrimIfAbsent _ _ _ h)

theorem ensureContainerPrim_of_present (s : Stage) (p : String)
    (h1 : (getPrim s p).isSome = true)
    (h2 : (getPrim s (matterportChild p)).isSome = true) :
    ensureContainerPrim s p = (s, matterportChild p) := by
  show (definePrimIfAbsent (definePrimIfAbsent s p (defaultPrim "Xform"))
      (matterportChild p) (defaultPrim "Xform"), matterportChild p) = (s, matterportChild p)
  rw [definePrimIfAbsent_of_isSome s p _ h1, definePrimIfAbsent_of_isSome s _ _ h2]

theorem importUsdRef_snd (s : Stage) (p u : String) :
    (importMatterportUsdReference s p u).2 = matterportChild p := rfl

theorem importUsdRef_child (s : Stage) (p u : String) :
    ∃ pr, getPrim (importMatterportUsdReference s p u).1 (matterportChild p) = some pr ∧
      pr.references = [u] := by
  obtain ⟨pr0, h0⟩ :=
    Option.isSome_iff_exists.mp (ensureContainerPrim_child_isSome s p)
  refine ⟨{ pr0 with references := [u] }, ?_, rfl⟩
  show getPrim (setReferences (ensureContainerPrim s p).1 (ensureContainerPrim s p).2 [u])
      (matterportChild p) = _
  rw [ensureContainerPrim_snd]
  exact getPrim_setReferences_self _ _ _ _ h0

theorem importUsdRef_container (s : Stage) (p u : String) :
    (getPrim (importMatterportUsdReference s p u).1 p).isSome = true := by
  show (getPrim (setReferences (ensureContainerPrim s p).1 (ensureContainerPrim s p).2 [u]) p).isSome = true
  rw [ensureContainerPrim_snd,
    getPrim_setReferences_ne _ _ _ _ (Ne.symm (matterportChild_ne p))]
  exact ensureContainerPrim_container_isSome s p

theorem stageWF_importUsdRef (s : Stage) (p u : String) (h : StageWF s) :
    StageWF (importMatterportUsdReference s p u).1 := by
  show StageWF (setReferences (ensureContainerPrim s p).1 (ensureContainerPrim s p).2 [u])
  exact stageWF_setReferences _ _ _ (stageWF_ensureContainerPrim s p h)

theorem importUsdRef_idem (s : Stage) (p u : String) :
    importMatterportUsdReference (importMatterportUsdReference s p u).1 p u =
      importMatterportUsdReference s p u := by
  obtain ⟨pr, hpr, hrefs⟩ := importUsdRef_child s p u
  have hc := importUsdRef_container s p u
  have hch : (getPrim (importMatterportUsdReference s p u).1 (matterportChild p)).isSome = true := by
    rw [hpr]; rfl
  have hens := ensureContainerPrim_of_present (importMatterportUsdReference s p u).1 p hc hch
  show (setReferences (ensureContainerPrim (importMatterportUsdReference s p u).1 p).1
      (ensureContainerPrim (importMatterportUsdReference s p u).1 p).2 [u],
      (ensureContainerPrim (importMatterportUsdReference s p u).1 p).2)
      = importMatterportUsdReference s p u
  rw [hens]
  simp only [setReferences_fix _ _ _ _ hpr hrefs]
  exact Prod.mk.eta

/-! ## Lemmas about the ground plane -/

theorem ensureGP_plane_prim (s : Stage) (path : String) :
    ∃ pr, getPrim (ensureHiddenGroundPlane s path) (path ++ "/Plane") = some pr ∧
      pr.visible = false ∧ pr.collision = true := by
  obtain ⟨pr2, h2⟩ := Option.isSome_iff_exists.mp
    (definePrimIfAbsent_isSome_self
      (definePrimIfAbsent s path (defaultPrim "Xform")) (path ++ "/Plane")
      { defaultPrim "Cube" with xformConfigured := true })
  have h3 := getPrim_setVisibleFalse_self _ _ _ h2
  have h4 := getPrim_setCollisionTrue_self _ _ _ h3
  exact ⟨_, h4, rfl, rfl⟩

theorem ensureGP_container_isSome (s : Stage) (path : String)
    (hne : ¬ (path ++ "/Plane" = path)) :
    (getPrim (ensureHiddenGroundPlane s path) path).isSome = true := by
  unfold ensureHiddenGroundPlane
  rw [getPrim_setCollisionTrue_ne _ _ _ (fun h => hne h.symm),
    getPrim_setVisibleFalse_ne _ _ _ (fun h => hne h.symm),
    definePrimIfAbsent_ne _ _ _ _ (fun h => hne h.symm)]
  exact definePrimIfAbsent_isSome_self _ _ _

theorem stageWF_ensureGP (s : Stage) (path : String) (h : StageWF s) :
    StageWF (ensureHiddenGroundPlane s path) := by
  unfold ensureHiddenGroundPlane
  exact stageWF_setCollisionTrue _ _
    (stageWF_setVisibleFalse _ _
      (stageWF_definePrimIfAbsent _ _ _ (stageWF_definePrimIfAbsent _ _ _ h)))

theorem ensureGP_idem (s : Stage) (path : String)
    (hne : ¬ (path ++ "/Plane" = path)) :
    ensureHiddenGroundPlane (ensureHiddenGroundPlane s path) path
      = ensureHiddenGroundPlane s path := by
  obtain ⟨pr, hpr, hv, hc⟩ := ensureGP_plane_prim s path
  have hpath := ensureGP_container_isSome s path hne
  show setCollisionTrue (setVisibleFalse
      (definePrimIfAbsent
        (definePrimIfAbsent (ensureHiddenGroundPlane s path) path (defaultPrim "Xform"))
        (path ++ "/Plane") { defaultPrim "Cube" with xformConfigured := true })
      (path ++ "/Plane")) (path ++ "/Plane") = ensureHiddenGroundPlane s path
  rw [definePrimIfAbsent_of_isSome _ _ _ hpath]
  rw [definePrimIfAbsent_of_isSome _ _ _ (by rw [hpr]; rfl)]
  rw [setVisibleFalse_fix _ _ _ hpr hv]
  exact setCollisionTrue_fix _ _ _ hpr hc

/-! ## Claims about the synchronous scene operations -/

/-- Claim C8: for every `prim_path` at which no asset was previously
imported (no prim at `{prim_path}/Matterport`), `apply_matterport_collision`
fails with the prim-not-found error (`RuntimeError` in the source, the
spec's `PrimNotFound`) and performs no scene-graph mutation; when the
child prim exists it enables collision on it and returns the child
path. -/
theorem c8_apply_collision_spec (s : Stage) (primPath : String) :
    (getPrim s (matterportChild primPath) = none →
      applyMatterportCollision s primPath =
        (Except.error ("Matterport prim not found at '" ++ matterportChild primPath ++
          "'. Import USD first."), s))
    ∧ (∀ pr, getPrim s (matterportChild primPath) = some pr →
        applyMatterportCollision s primPath =
          (Except.ok (matterportChild primPath),
            setPrim s (matterportChild primPath) { pr with collision := true })) := by
  constructor
  · intro h
    simp [applyMatterportCollision, h]
  · intro pr h
    simp [applyMatterportCollision, h]

/-- Witness for C8: on the empty stage the collision call fails with
the prim-not-found error and returns the stage untouched; with the
child prim present it succeeds. -/
theorem c8_apply_collision_witness :
    applyMatterportCollision [] "/World/terrain" =
      (Except.error ("Matterport prim not found at '" ++ matterportChild "/World/terrain" ++
        "'. Import USD first."), ([] : Stage)) ∧
    applyMatterportCollision [(matterportChild "/World/terrain", defaultPrim "Xform")]
        "/World/terrain" =
      (Except.ok (matterportChild "/World/terrain"),
        setPrim [(matterportChild "/World/terrain", defaultPrim "Xform")]
          (matterportChild "/World/terrain") { defaultPrim "Xform" with collision := true }) :=
  ⟨(c8_apply_collision_spec [] "/World/terrain").1 (by decide),
   (c8_apply_collision_spec [(matterportChild "/World/terrain", defaultPrim "Xform")]
      "/World/terrain").2 (defaultPrim "Xform") (by decide)⟩

/-- Claim C9: `ensure_hidden_ground_plane` is idempotent: on any
well-formed stage, after one call there is exactly one plane prim at
`/World/GroundPlane/Plane`, it is invisible and collidable, and a
second call returns the stage unchanged (both calls succeed — the
function is total). -/
theorem c9_ensure_ground_plane_idempotent (s : Stage) (hwf : StageWF s) :
    ensureHiddenGroundPlane (ensureHiddenGroundPlane s "/World/GroundPlane") "/World/GroundPlane"
      = ensureHiddenGroundPlane s "/World/GroundPlane"
    ∧ countKey (ensureHiddenGroundPlane s "/World/GroundPlane") "/World/GroundPlane/Plane" = 1
    ∧ (∃ pr, getPrim (ensureHiddenGroundPlane s "/World/GroundPlane") "/World/GroundPlane/Plane"
        = some pr ∧ pr.visible = false ∧ pr.collision = true) := by
  have hplane : "/World/GroundPlane" ++ "/Plane" = "/World/GroundPlane/Plane" := by decide
  have hne : ¬ ("/World/GroundPlane" ++ "/Plane" = "/World/GroundPlane") := by decide
  obtain ⟨pr, hpr, hv, hc⟩ := ensureGP_plane_prim s "/World/GroundPlane"
  rw [hplane] at hpr
  refine ⟨ensureGP_idem s _ hne, ?_, ⟨pr, hpr, hv, hc⟩⟩
  have hwf' := stageWF_ensureGP s "/World/GroundPlane" hwf
  exact Nat.le_antisymm (countKey_le_one _ _ hwf') (one_le_countKey _ _ pr hpr)

/-- Witness for C9 on the empty (well-formed) stage. -/
theorem c9_ensure_ground_plane_witness :
    StageWF ([] : Stage) ∧
    (ensureHiddenGroundPlane (ensureHiddenGroundPlane [] "/World/GroundPlane") "/World/GroundPlane"
      = ensureHiddenGroundPlane [] "/World/GroundPlane"
    ∧ countKey (ensureHiddenGroundPlane [] "/World/GroundPlane") "/World/GroundPlane/Plane" = 1
    ∧ (∃ pr, getPrim (ensureHiddenGroundPlane [] "/World/GroundPlane") "/World/GroundPlane/Plane"
        = some pr ∧ pr.visible = false ∧ pr.collision = true)) :=
  ⟨by decide, c9_ensure_ground_plane_idempotent [] (by decide)⟩

/-- Claim C10: `import_matterport_usd_reference` returns the child path
`{prim_path}/Matterport`; afterwards the child prim exists and carries
exactly the one (most recent) reference, the container prim exists, and
repeating the call with the same arguments leaves the stage exactly as
a single call does. -/
theorem c10_import_usd_reference_spec (s : Stage) (primPath usdPath : String) :
    (importMatterportUsdReference s primPath usdPath).2 = matterportChild primPath
    ∧ (∃ pr, getPrim (importMatterportUsdReference s primPath usdPath).1 (matterportChild primPath)
        = some pr ∧ pr.references = [usdPath])
    ∧ (getPrim (importMatterportUsdReference s primPath usdPath).1 primPath).isSome = true
    ∧ importMatterportUsdReference (importMatterportUsdReference s primPath usdPath).1 primPath usdPath
        = importMatterportUsdReference s primPath usdPath :=
  ⟨importUsdRef_snd s primPath usdPath, importUsdRef_child s primPath usdPath,
   importUsdRef_container s primPath usdPath, importUsdRef_idem s primPath usdPath⟩

/-! ## Lemmas about the frame-tick driver -/

theorem onUpdate_of_body_ok (s : ExtState) (env : TickEnv) (s' : ExtState)
    (hrun : s.running = true) (h : tickBody s env = Except.ok s') :
    onUpdate s env = s' := by
  simp [onUpdate, hrun, h]

theorem onUpdate_of_body_error (s : ExtState) (env : TickEnv) (e : String)
    (sErr : ExtState) (hrun : s.running = true)
    (h : tickBody s env = Except.error (e, sErr)) :
    onUpdate s env = { sErr with running := false, btnEnabled := true } := by
  simp [onUpdate, hrun, h]

theorem tickWork_le_one (s : ExtState) (env : TickEnv) : tickWork s env ≤ 1 := by
  unfold tickWork
  repeat' split
  all_goals omega

/-- Claim C2: the per-frame update callback is a total function of the
extension state and the tick oracle — no exception escapes it.  When no
job is running it returns immediately without touching anything.  Every
exception raised while advancing the job is caught by the `except`
handler, which performs the code's `Failed` handling: the job is
terminated on the spot — `_import_running` is cleared (re-arming the
re-entrancy guard so a subsequent import may start) and the import
button is re-enabled.  One tick after reaching `done` the driver clears
the job the same way. -/
theorem c2_driver_total_and_clears (s : ExtState) (env : TickEnv) :
    (s.running = false → onUpdate s env = s)
    ∧ (∀ e sErr, tickBody s env = Except.error (e, sErr) → s.running = true →
        onUpdate s env = { sErr with running := false, btnEnabled := true })
    ∧ (s.running = true → s.state = some IState.done →
        (onUpdate s env).running = false ∧ (onUpdate s env).btnEnabled = true) := by
  refine ⟨?_, ?_, ?_⟩
  · intro h
    simp [onUpdate, h]
  · intro e sErr herr hrun
    exact onUpdate_of_body_error s env e sErr hrun herr
  · intro hrun hdone
    have hbody : tickBody s env =
        Except.ok { s with running := false, btnEnabled := true } := by
      simp [tickBody, hdone]
    rw [onUpdate_of_body_ok s env _ hrun hbody]
    exact ⟨rfl, rfl⟩

/-- Witness for C2: a tick in `init_sim` whose simulation-context
construction raises is caught, and the driver clears the job. -/
theorem c2_driver_witness :
    (⟨true, some IState.init_sim, none, none, false, "scene.obj", "/World/terrain", false⟩ :
        ExtState).running = true
    ∧ tickBody ⟨true, some IState.init_sim, none, none, false, "scene.obj", "/World/terrain", false⟩
        ⟨0, some "boom", none, false, none⟩
      = Except.error ("boom",
          ⟨true, some IState.init_sim, none, none, false, "scene.obj", "/World/terrain", false⟩)
    ∧ onUpdate ⟨true, some IState.init_sim, none, none, false, "scene.obj", "/World/terrain", false⟩
        ⟨0, some "boom", none, false, none⟩
      = { (⟨true, some IState.init_sim, none, none, false, "scene.obj", "/World/terrain", false⟩ :
            ExtState) with running := false, btnEnabled := true } :=
  ⟨rfl, rfl,
    (c2_driver_total_and_clears _ _).2.1 "boom" _ rfl rfl⟩

theorem wait_step_cases (s : ExtState) (env : TickEnv) (next : IState)
    (hrun : s.running = true)
    (hbody : tickBody s env = stepWait s env next)
    (hfut : s.future.isSome = true) :
    (env.futureDone = false → onUpdate s env = s)
    ∧ (env.futureDone = true → ∀ e, env.futureExc = some e →
        onUpdate s env = { s with running := false, btnEnabled := true })
    ∧ (env.futureDone = true → env.futureExc = none →
        onUpdate s env = { s with future := none, state := some next }) := by
  obtain ⟨k, hk⟩ := Option.isSome_iff_exists.mp hfut
  refine ⟨?_, ?_, ?_⟩
  · intro hd
    apply onUpdate_of_body_ok s env s hrun
    rw [hbody]; simp [stepWait, hk, hd]
  · intro hd e he
    apply onUpdate_of_body_error s env e s hrun
    rw [hbody]; simp [stepWait, hk, hd, he]
  · intro hd he
    apply onUpdate_of_body_ok s env _ hrun
    rw [hbody]; simp [stepWait, hk, hd, he]

theorem wait_gate (s : ExtState) (env : TickEnv) (next : IState)
    (hrun : s.running = true)
    (hbody : tickBody s env = stepWait s env next)
    (hfut : s.future.isSome = true)
    (hrun' : (onUpdate s env).running = true)
    (hne : (onUpdate s env).state ≠ s.state) :
    env.futureDone = true ∧ env.futureExc = none := by
  obtain ⟨hnd, herr, hok⟩ := wait_step_cases s env next hrun hbody hfut
  cases hd : env.futureDone with
  | false => exact absurd (by rw [hnd hd]) hne
  | true =>
    cases he : env.futureExc with
    | some e =>
      rw [herr hd e he] at hrun'
      exact absurd hrun' (by simp)
    | none => exact ⟨rfl, rfl⟩

theorem startImport_started_arms (s0 : ExtState) (env0 : StartEnv) (stage : Stage)
    (h : (startImport s0 env0 stage).2.2 = StartOutcome.started) :
    (startImport s0 env0 stage).1.state = some IState.init_sim
    ∧ jobInvar (startImport s0 env0 stage).1 := by
  by_cases h0 : s0.inputFile = ""
  · simp [startImport, h0] at h
  · by_cases h1 : strEndsWith (lowerStr (resolveStart s0.inputFile env0)) ".usd" = true
    · simp [startImport, h0, h1] at h
    · by_cases h2 : s0.running = true
      · simp [startImport, h0, h1, h2] at h
      · constructor
        · simp [startImport, h0, h1, h2]
        · refine ⟨IState.init_sim, ?_, ?_, ?_, ?_⟩
          · simp [startImport, h0, h1, h2]
          · intro hww; simp [IState.isWait] at hww
          · intro _; simp [startImport, h0, h1, h2]
          · intro hi; simp [IState.idx] at hi

/-- Claim C4: for every started import job the machine is strictly
sequential in the order `init_sim → wait_init → create_importer →
wait_import → reset → wait_reset → pause → wait_pause → done`:
`_start_import` arms the machine at `init_sim` with the job invariant
(at most one pending future — none outside wait states); every tick
either terminates the job (failure handling, or the `done` cleanup),
stays in place, or advances to the state of the next index, preserving
the invariant; leaving a wait state while still running requires the
single pending future to be complete and exception-free; and every tick
performs at most one unit of work (one coroutine issue or one poll) —
exactly one in a benign environment outside `done`. -/
theorem c4_strict_sequencing (s : ExtState) (env : TickEnv)
    (hrun : s.running = true) (hinv : jobInvar s) :
    ((onUpdate s env).running = false
      ∨ ∃ st st', s.state = some st ∧ (onUpdate s env).state = some st' ∧
          (st' = st ∨ st'.idx = st.idx + 1) ∧ jobInvar (onUpdate s env))
    ∧ (∀ st, s.state = some st → st.isWait = true → (onUpdate s env).running = true →
        (onUpdate s env).state ≠ s.state →
        env.futureDone = true ∧ env.futureExc = none)
    ∧ tickWork s env ≤ 1
    ∧ (env.ctorExc = none → env.issueExc = none → s.primPath ≠ "" →
        s.state ≠ some IState.done → tickWork s env = 1)
    ∧ (∀ s0 env0 stage, (startImport s0 env0 stage).2.2 = StartOutcome.started →
        (startImport s0 env0 stage).1.state = some IState.init_sim
        ∧ jobInvar (startImport s0 env0 stage).1) := by
  obtain ⟨st, hst, hw, hnw, hsim⟩ := hinv
  refine ⟨?_, ?_, tickWork_le_one s env, ?_,
    fun s0 env0 stage h => startImport_started_arms s0 env0 stage h⟩
  · -- progress: clear, stay, or advance by one
    cases st with
    | init_sim =>
      rcases hc : env.ctorExc with _ | e
      · rcases hi : env.issueExc with _ | e
        · have hbody : tickBody s env = Except.ok
              { s with sim := some env.simId, future := some FutKind.initSim,
                       state := some IState.wait_init } := by
            simp [tickBody, hst, stepInitSim, hc, hi]
          right
          refine ⟨IState.init_sim, IState.wait_init, hst, ?_, Or.inr rfl, ?_⟩
          · rw [onUpdate_of_body_ok s env _ hrun hbody]
          · rw [onUpdate_of_body_ok s env _ hrun hbody]
            exact ⟨IState.wait_init, rfl, fun _ => rfl,
              fun hww => by simp [IState.isWait] at hww, fun _ => rfl⟩
        · left
          have hbody : tickBody s env =
              Except.error (e, { s with sim := some env.simId }) := by
            simp [tickBody, hst, stepInitSim, hc, hi]
          rw [onUpdate_of_body_error s env e _ hrun hbody]
      · left
        have hbody : tickBody s env = Except.error (e, s) := by
          simp [tickBody, hst, stepInitSim, hc]
        rw [onUpdate_of_body_error s env e s hrun hbody]
    | wait_init =>
      obtain ⟨hnd, herr, hok⟩ := wait_step_cases s env IState.create_importer hrun
        (by simp [tickBody, hst]) (hw rfl)
      cases hd : env.futureDone with
      | false =>
        right
        refine ⟨IState.wait_init, IState.wait_init, hst, ?_, Or.inl rfl, ?_⟩
        · rw [hnd hd]; exact hst
        · rw [hnd hd]; exact ⟨IState.wait_init, hst, hw, hnw, hsim⟩
      | true =>
        cases he : env.futureExc with
        | some e => left; rw [herr hd e he]
        | none =>
          right
          refine ⟨IState.wait_init, IState.create_importer, hst, ?_, Or.inr rfl, ?_⟩
          · rw [hok hd he]
          · rw [hok hd he]
            exact ⟨IState.create_importer, rfl,
              fun hww => by simp [IState.isWait] at hww, fun _ => rfl,
              fun _ => hsim (by simp [IState.idx])⟩
    | create_importer =>
      by_cases hp : s.primPath = ""
      · left
        have hbody : tickBody s env =
            Except.error ("prim_path must be specified in TerrainImporterCfg", s) := by
          simp [tickBody, hst, stepCreateImporter, hp]
        rw [onUpdate_of_body_error s env _ s hrun hbody]
      · rcases hc : env.ctorExc with _ | e
        · rcases hi : env.issueExc with _ | e
          · have hbody : tickBody s env = Except.ok
                { s with importer := true, future := some FutKind.loadWorld,
                         state := some IState.wait_import } := by
              simp [tickBody, hst, stepCreateImporter, hp, hc, hi]
            right
            refine ⟨IState.create_importer, IState.wait_import, hst, ?_, Or.inr rfl, ?_⟩
            · rw [onUpdate_of_body_ok s env _ hrun hbody]
            · rw [onUpdate_of_body_ok s env _ hrun hbody]
              exact ⟨IState.wait_import, rfl, fun _ => rfl,
                fun hww => by simp [IState.isWait] at hww,
                fun _ => hsim (by simp [IState.idx])⟩
          · left
            have hbody : tickBody s env =
                Except.error (e, { s with importer := true }) := by
              simp [tickBody, hst, stepCreateImporter, hp, hc, hi]
            rw [onUpdate_of_body_error s env e _ hrun hbody]
        · left
          have hbody : tickBody s env = Except.error (e, s) := by
            simp [tickBody, hst, stepCreateImporter, hp, hc]
          rw [onUpdate_of_body_error s env e s hrun hbody]
    | wait_import =>
      obtain ⟨hnd, herr, hok⟩ := wait_step_cases s env IState.reset hrun
        (by simp [tickBody, hst]) (hw rfl)
      cases hd : env.futureDone with
      | false =>
        right
        refine ⟨IState.wait_import, IState.wait_import, hst, ?_, Or.inl rfl, ?_⟩
        · rw [hnd hd]; exact hst
        · rw [hnd hd]; exact ⟨IState.wait_import, hst, hw, hnw, hsim⟩
      | true =>
        cases he : env.futureExc with
        | some e => left; rw [herr hd e he]
        | none =>
          right
          refine ⟨IState.wait_import, IState.reset, hst, ?_, Or.inr rfl, ?_⟩
          · rw [hok hd he]
          · rw [hok hd he]
            exact ⟨IState.reset, rfl,
              fun hww => by simp [IState.isWait] at hww, fun _ => rfl,
              fun _ => hsim (by simp [IState.idx])⟩
    | reset =>
      obtain ⟨n, hn⟩ := Option.isSome_iff_exists.mp (hsim (by simp [IState.idx]))
      rcases hi : env.issueExc with _ | e
      · have hbody : tickBody s env = Except.ok
            { s with future := some FutKind.resetSim, state := some IState.wait_reset } := by
          simp [tickBody, hst, stepIssueSim, hn, hi]
        right
        refine ⟨IState.reset, IState.wait_reset, hst, ?_, Or.inr rfl, ?_⟩
        · rw [onUpdate_of_body_ok s env _ hrun hbody]
        · rw [onUpdate_of_body_ok s env _ hrun hbody]
          refine ⟨IState.wait_reset, rfl, fun _ => rfl,
            fun hww => by simp [IState.isWait] at hww, fun _ => ?_⟩
          simp [hn]
      · left
        have hbody : tickBody s env = Except.error (e, s) := by
          simp [tickBody, hst, stepIssueSim, hn, hi]
        rw [onUpdate_of_body_error s env e s hrun hbody]
    | wait_reset =>
      obtain ⟨hnd, herr, hok⟩ := wait_step_cases s env IState.pause hrun
        (by simp [tickBody, hst]) (hw rfl)
      cases hd : env.futureDone with
      | false =>
        right
        refine ⟨IState.wait_reset, IState.wait_reset, hst, ?_, Or.inl rfl, ?_⟩
        · rw [hnd hd]; exact hst
        · rw [hnd hd]; exact ⟨IState.wait_reset, hst, hw, hnw, hsim⟩
      | true =>
        cases he : env.futureExc with
        | some e => left; rw [herr hd e he]
        | none =>
          right
          refine ⟨IState.wait_reset, IState.pause, hst, ?_, Or.inr rfl, ?_⟩
          · rw [hok hd he]
          · rw [hok hd he]
            exact ⟨IState.pause, rfl,
              fun hww => by simp [IState.isWait] at hww, fun _ => rfl,
              fun _ => hsim (by simp [IState.idx])⟩
    | pause =>
      obtain ⟨n, hn⟩ := Option.isSome_iff_exists.mp (hsim (by simp [IState.idx]))
      rcases hi : env.issueExc with _ | e
      · have hbody : tickBody s env = Except.ok
            { s with future := some FutKind.pauseSim, state := some IState.wait_pause } := by
          simp [tickBody, hst, stepIssueSim, hn, hi]
        right
        refine ⟨IState.pause, IState.wait_pause, hst, ?_, Or.inr rfl, ?_⟩
        · rw [onUpdate_of_body_ok s env _ hrun hbody]
        · rw [onUpdate_of_body_ok s env _ hrun hbody]
          refine ⟨IState.wait_pause, rfl, fun _ => rfl,
            fun hww => by simp [IState.isWait] at hww, fun _ => ?_⟩
          simp [hn]
      · left
        have hbody : tickBody s env = Except.error (e, s) := by
          simp [tickBody, hst, stepIssueSim, hn, hi]
        rw [onUpdate_of_body_error s env e s hrun hbody]
    | wait_pause =>
      obtain ⟨hnd, herr, hok⟩ := wait_step_cases s env IState.done hrun
        (by simp [tickBody, hst]) (hw rfl)
      cases hd : env.futureDone with
      | false =>
        right
        refine ⟨IState.wait_pause, IState.wait_pause, hst, ?_, Or.inl rfl, ?_⟩
        · rw [hnd hd]; exact hst
        · rw [hnd hd]; exact ⟨IState.wait_pause, hst, hw, hnw, hsim⟩
      | true =>
        cases he : env.futureExc with
        | some e => left; rw [herr hd e he]
        | none =>
          right
          refine ⟨IState.wait_pause, IState.done, hst, ?_, Or.inr rfl, ?_⟩
          · rw [hok hd he]
          · rw [hok hd he]
            exact ⟨IState.done, rfl,
              fun hww => by simp [IState.isWait] at hww, fun _ => rfl,
              fun _ => hsim (by simp [IState.idx])⟩
    | done =>
      left
      have hbody : tickBody s env =
          Except.ok { s with running := false, btnEnabled := true } := by
        simp [tickBody, hst]
      rw [onUpdate_of_body_ok s env _ hrun hbody]
  · -- leaving a wait state while running needs a clean, complete future
    intro st0 hst0 hwait hrun' hne
    have hq : st = st0 := by
      rw [hst] at hst0
      exact Option.some.inj hst0
    subst hq
    cases st with
    | init_sim => simp [IState.isWait] at hwait
    | create_importer => simp [IState.isWait] at hwait
    | reset => simp [IState.isWait] at hwait
    | pause => simp [IState.isWait] at hwait
    | done => simp [IState.isWait] at hwait
    | wait_init =>
      exact wait_gate s env IState.create_importer hrun (by simp [tickBody, hst]) (hw rfl) hrun' hne
    | wait_import =>
      exact wait_gate s env IState.reset hrun (by simp [tickBody, hst]) (hw rfl) hrun' hne
    | wait_reset =>
      exact wait_gate s env IState.pause hrun (by simp [tickBody, hst]) (hw rfl) hrun' hne
    | wait_pause =>
      exact wait_gate s env IState.done hrun (by simp [tickBody, hst]) (hw rfl) hrun' hne
  · -- exactly one unit of work in a benign environment
    intro hc hi hp hd
    cases st with
    | init_sim => simp [tickWork, hrun, hst, hc, hi]
    | wait_init => simp [tickWork, hrun, hst, hw rfl]
    | create_importer => simp [tickWork, hrun, hst, hp, hc, hi]
    | wait_import => simp [tickWork, hrun, hst, hw rfl]
    | reset => simp [tickWork, hrun, hst, hsim (by simp [IState.idx]), hi]
    | wait_reset => simp [tickWork, hrun, hst, hw rfl]
    | pause => simp [tickWork, hrun, hst, hsim (by simp [IState.idx]), hi]
    | wait_pause => simp [tickWork, hrun, hst, hw rfl]
    | done => exact absurd hst hd

/-- Witness for C4 at a freshly armed job and a benign tick
environment. -/
theorem c4_strict_sequencing_witness :
    (⟨true, some IState.init_sim, none, none, false, "scene.obj", "/World/terrain", false⟩ :
        ExtState).running = true
    ∧ jobInvar ⟨true, some IState.init_sim, none, none, false, "scene.obj", "/World/terrain", false⟩
    ∧ tickWork ⟨true, some IState.init_sim, none, none, false, "scene.obj", "/World/terrain", false⟩
        ⟨0, none, none, false, none⟩ ≤ 1 :=
  ⟨rfl,
   ⟨IState.init_sim, rfl, fun hww => by simp [IState.isWait] at hww,
     fun _ => rfl, fun hi => by simp [IState.idx] at hi⟩,
   (c4_strict_sequencing
      ⟨true, some IState.init_sim, none, none, false, "scene.obj", "/World/terrain", false⟩
      ⟨0, none, none, false, none⟩ rfl
      ⟨IState.init_sim, rfl, fun hww => by simp [IState.isWait] at hww,
        fun _ => rfl, fun hi => by simp [IState.idx] at hi⟩).2.2.1⟩

/-! ## Claims about the conversion pipeline -/

/-- Claim C7: for every convertible-mesh (`.obj`) source, the
mesh-to-USD conversion is invoked only if the native counterpart (same
base name with `.usd` extension) does not already exist at the derived
path; if that file exists, conversion is skipped. -/
theorem c7_conversion_only_if_absent (obj : String) (fs : List String) (oc : ConvOutcome)
    (hobj : lowerStr (splitext obj).2 = ".obj") :
    ((splitext obj).1 ++ ".usd" ∈ fs →
      (importMatterportTerrainAsync obj fs oc).converterInvoked = false)
    ∧ ((splitext obj).1 ++ ".usd" ∉ fs →
      (importMatterportTerrainAsync obj fs oc).converterInvoked = true) := by
  constructor
  · intro hmem
    simp [importMatterportTerrainAsync, hobj, hmem]
  · intro hmem
    simp [importMatterportTerrainAsync, hobj, hmem]
    split <;> rfl

/-- Witness for C7: `room.obj` with `room.usd` present skips
conversion; with it absent, conversion runs. -/
theorem c7_conversion_only_if_absent_witness :
    lowerStr (splitext "room.obj").2 = ".obj"
    ∧ (importMatterportTerrainAsync "room.obj" ["room.usd"] ⟨true, 0, ""⟩).converterInvoked = false
    ∧ (importMatterportTerrainAsync "room.obj" [] ⟨true, 0, ""⟩).converterInvoked = true :=
  ⟨by decide,
   (c7_conversion_only_if_absent "room.obj" ["room.usd"] ⟨true, 0, ""⟩ (by decide)).1 (by decide),
   (c7_conversion_only_if_absent "room.obj" [] ⟨true, 0, ""⟩ (by decide)).2 (by decide)⟩

/-- Counterexample for claim C6 as stated: with source `room.obj`, no
`room.usd` present, and the converter failing with status `7` and
message `"bad mesh"`, the conversion is invoked, but the failure the
job carries is the `FileNotFoundError` naming `room.usd` — it contains
neither the converter's status code nor its error message (the spec's
`ConversionFailed` payload); those are only logged. -/
theorem c6_counterexample :
    (importMatterportTerrainAsync "room.obj" [] ⟨false, 7, "bad mesh"⟩).converterInvoked = true
    ∧ (importMatterportTerrainAsync "room.obj" [] ⟨false, 7, "bad mesh"⟩).result
        = Except.error "USD file not found: room.usd"
    ∧ ¬ ("bad mesh".data <:+: "USD file not found: room.usd".data)
    ∧ ¬ ("7".data <:+: "USD file not found: room.usd".data) :=
  ⟨by decide, by decide, by decide, by decide⟩

/-- Claim C6 (amended): for every `.obj` request whose derived `.usd`
counterpart is absent, the asset conversion is invoked; on conversion
failure the converter's status code and error message are only logged
(`convert_asset_to_usd` swallows the failure), and the job fails with
the file-not-found error naming the derived `.usd` path; a driver tick
polling a future completed with that error clears the job. -/
theorem c6_conversion_failure_amended (obj : String) (fs : List String) (oc : ConvOutcome)
    (hobj : lowerStr (splitext obj).2 = ".obj")
    (habs : (splitext obj).1 ++ ".usd" ∉ fs)
    (hfail : oc.success = false) :
    (importMatterportTerrainAsync obj fs oc).converterInvoked = true
    ∧ (importMatterportTerrainAsync obj fs oc).result
        = Except.error ("USD file not found: " ++ ((splitext obj).1 ++ ".usd"))
    ∧ (importMatterportTerrainAsync obj fs oc).logs
        = ["[AssetConverter] Failed to convert " ++ obj ++ " -> " ++
            ((splitext obj).1 ++ ".usd") ++ " (status=" ++ toString oc.statusCode ++
            "): " ++ oc.errorMessage]
    ∧ (∀ (s : ExtState) (env : TickEnv), s.running = true →
        s.state = some IState.wait_import → s.future.isSome = true →
        env.futureDone = true →
        env.futureExc = some ("USD file not found: " ++ ((splitext obj).1 ++ ".usd")) →
        (onUpdate s env).running = false) := by
  refine ⟨?_, ?_, ?_, ?_⟩
  · simp [importMatterportTerrainAsync, convertAssetToUsd, hobj, habs, hfail]
  · simp [importMatterportTerrainAsync, convertAssetToUsd, hobj, habs, hfail]
  · simp [importMatterportTerrainAsync, convertAssetToUsd, hobj, habs, hfail]
  · intro s env hrun hst hfut hd he
    have hbody : tickBody s env = stepWait s env IState.reset := by
      simp [tickBody, hst]
    have herr := (wait_step_cases s env IState.reset hrun hbody hfut).2.1 hd _ he
    rw [herr]

/-- Witness for C6 (amended) at the counterexample's concrete input. -/
theorem c6_conversion_failure_witness :
    lowerStr (splitext "room.obj").2 = ".obj"
    ∧ ((splitext "room.obj").1 ++ ".usd" ∉ ([] : List String))
    ∧ (⟨false, 7, "bad mesh"⟩ : ConvOutcome).success = false
    ∧ (importMatterportTerrainAsync "room.obj" [] ⟨false, 7, "bad mesh"⟩).converterInvoked = true
    ∧ (importMatterportTerrainAsync "room.obj" [] ⟨false, 7, "bad mesh"⟩).logs
        = ["[AssetConverter] Failed to convert " ++ "room.obj" ++ " -> " ++
            ((splitext "room.obj").1 ++ ".usd") ++ " (status=" ++ toString (7 : Nat) ++
            "): " ++ "bad mesh"] :=
  ⟨by decide, by decide, rfl,
   (c6_conversion_failure_amended "room.obj" [] ⟨false, 7, "bad mesh"⟩
      (by decide) (by decide) rfl).1,
   (c6_conversion_failure_amended "room.obj" [] ⟨false, 7, "bad mesh"⟩
      (by decide) (by decide) rfl).2.2.1⟩

/-! ## Claims about the entry points and the re-entrancy guard -/

/-- Counterexample for claim C5 as stated: the programmatic entry point
with a `.usd` source and the default `manage_simulation = True` clears,
creates and initializes a simulation instance and later resets and
pauses it — a `.usd` request does not avoid the simulation lifecycle. -/
theorem c5_counterexample :
    strEndsWith (lowerStr "room.usd") ".usd" = true
    ∧ (importMatterportAssetAsync "/World/terrain" "room.usd" false true none
        ⟨true, 0, ""⟩ ⟨[], [], false⟩).eff.simCreated = true
    ∧ (importMatterportAssetAsync "/World/terrain" "room.usd" false true none
        ⟨true, 0, ""⟩ ⟨[], [], false⟩).eff.simInitialized = true
    ∧ (importMatterportAssetAsync "/World/terrain" "room.usd" false true none
        ⟨true, 0, ""⟩ ⟨[], [], false⟩).eff.simReset = true
    ∧ (importMatterportAssetAsync "/World/terrain" "room.usd" false true none
        ⟨true, 0, ""⟩ ⟨[], [], false⟩).eff.simPaused = true
    ∧ (importMatterportAssetAsync "/World/terrain" "room.usd" false true none
        ⟨true, 0, ""⟩ ⟨[], [], false⟩).world.simInstance = true :=
  ⟨by decide, by decide, by decide, by decide, by decide, by decide⟩

/-- Claim C5 (amended): for every request whose resolved source ends in
`.usd`, `import_matterport_asset_async` takes the USD-reference branch —
never the importer or the converter — and returns
`{prim_path}/Matterport`; it touches the simulation lifecycle exactly
when `manage_simulation` is set, so with `manage_simulation = false` it
never creates or touches a simulation instance.  The UI fast path
(`_start_import` on a `.usd` file) leaves the job fields — running
flag, state, pending future, simulation handle — untouched and creates
no pollable future. -/
theorem c5_usd_fast_path_amended (pp ip : String) (gp : Bool) (rel : Option String)
    (oc : ConvOutcome) (w : AsyncWorld)
    (hip : ¬ ip = "")
    (husd : strEndsWith (lowerStr (resolveAsync ip rel w.fs)) ".usd" = true) :
    ((importMatterportAssetAsync pp ip gp false rel oc w).outcome
        = Except.ok (matterportChild pp)
      ∧ (importMatterportAssetAsync pp ip gp false rel oc w).eff
        = { noEff with usedUsdReference := true }
      ∧ (importMatterportAssetAsync pp ip gp false rel oc w).world.simInstance
        = w.simInstance)
    ∧ (importMatterportAssetAsync pp ip gp true rel oc w).eff.usedImporter = false
    ∧ (importMatterportAssetAsync pp ip gp true rel oc w).eff.converterInvoked = false
    ∧ (∀ (s : ExtState) (env : StartEnv) (stage : Stage),
        ¬ s.inputFile = "" →
        strEndsWith (lowerStr (resolveStart s.inputFile env)) ".usd" = true →
        (startImport s env stage).1.running = s.running
        ∧ (startImport s env stage).1.state = s.state
        ∧ (startImport s env stage).1.future = s.future
        ∧ (startImport s env stage).1.sim = s.sim
        ∧ (startImport s env stage).2.2 = StartOutcome.fastPath) := by
  refine ⟨⟨?_, ?_, ?_⟩, ?_, ?_, ?_⟩
  · simp [importMatterportAssetAsync, hip, husd]
  · simp [importMatterportAssetAsync, hip, husd, noEff]
  · simp [importMatterportAssetAsync, hip, husd]
  · simp [importMatterportAssetAsync, hip, husd, noEff]
  · simp [importMatterportAssetAsync, hip, husd, noEff]
  · intro s env stage h0 h1
    refine ⟨?_, ?_, ?_, ?_, ?_⟩ <;> simp [startImport, h0, h1]

/-- Witness for C5 (amended): a concrete `.usd` request with
`manage_simulation = false`. -/
theorem c5_usd_fast_path_witness :
    ¬ ("room.usd" = "")
    ∧ strEndsWith (lowerStr (resolveAsync "room.usd" none [])) ".usd" = true
    ∧ (importMatterportAssetAsync "/World/terrain" "room.usd" false false none
        ⟨true, 0, ""⟩ ⟨[], [], false⟩).outcome = Except.ok (matterportChild "/World/terrain")
    ∧ (importMatterportAssetAsync "/World/terrain" "room.usd" false false none
        ⟨true, 0, ""⟩ ⟨[], [], false⟩).eff = { noEff with usedUsdReference := true } :=
  ⟨by decide, by decide,
   ((c5_usd_fast_path_amended "/World/terrain" "room.usd" false none ⟨true, 0, ""⟩
      ⟨[], [], false⟩ (by decide) (by decide)).1).1,
   ((c5_usd_fast_path_amended "/World/terrain" "room.usd" false none ⟨true, 0, ""⟩
      ⟨[], [], false⟩ (by decide) (by decide)).1).2.1⟩

/-- Counterexample for claim C3 as stated: with a state-machine job
active (`_import_running = True`), `_start_import` on a `.usd` source
is not rejected — the synchronous fast path executes and mutates the
stage (the guard is checked only after the `.usd` branch). -/
theorem c3_counterexample :
    (⟨true, some IState.wait_init, some FutKind.initSim, some 1, false,
        "/a/room.usd", "/World/terrain", false⟩ : ExtState).running = true
    ∧ (startImport ⟨true, some IState.wait_init, some FutKind.initSim, some 1, false,
        "/a/room.usd", "/World/terrain", false⟩ ⟨"/ext", []⟩ []).2.2 = StartOutcome.fastPath
    ∧ getPrim (startImport ⟨true, some IState.wait_init, some FutKind.initSim, some 1, false,
        "/a/room.usd", "/World/terrain", false⟩ ⟨"/ext", []⟩ []).2.1
        (matterportChild "/World/terrain")
      = some { defaultPrim "Xform" with references := ["/a/room.usd"] } :=
  ⟨rfl, by decide, by decide⟩

/-- Claim C3 (amended): starting a `.usd` fast-path import while a
state-machine job is active is not rejected: the fast path executes
synchronously regardless of the guard; it nevertheless leaves the
active job's state-machine fields — running flag, state, pending
future, simulation handle — unchanged. -/
theorem c3_fast_path_unguarded_amended (s : ExtState) (env : StartEnv) (stage : Stage)
    (hrun : s.running = true) (h0 : ¬ s.inputFile = "")
    (husd : strEndsWith (lowerStr (resolveStart s.inputFile env)) ".usd" = true) :
    (startImport s env stage).2.2 = StartOutcome.fastPath
    ∧ (startImport s env stage).2.1
        = (importMatterportUsdReference stage s.primPath (resolveStart s.inputFile env)).1
    ∧ (startImport s env stage).1.running = true
    ∧ (startImport s env stage).1.state = s.state
    ∧ (startImport s env stage).1.future = s.future
    ∧ (startImport s env stage).1.sim = s.sim := by
  refine ⟨?_, ?_, ?_, ?_, ?_, ?_⟩ <;> simp [startImport, h0, husd, hrun]

/-- Witness for C3 (amended) at a concrete active job and `.usd`
source. -/
theorem c3_fast_path_unguarded_witness :
    (⟨true, some IState.wait_import, some FutKind.loadWorld, some 2, true,
        "/b/scene.usd", "/World/env", false⟩ : ExtState).running = true
    ∧ ¬ ((⟨true, some IState.wait_import, some FutKind.loadWorld, some 2, true,
        "/b/scene.usd", "/World/env", false⟩ : ExtState).inputFile = "")
    ∧ strEndsWith (lowerStr (resolveStart "/b/scene.usd" ⟨"/ext", []⟩)) ".usd" = true
    ∧ (startImport ⟨true, some IState.wait_import, some FutKind.loadWorld, some 2, true,
        "/b/scene.usd", "/World/env", false⟩ ⟨"/ext", []⟩ []).2.2 = StartOutcome.fastPath :=
  ⟨rfl, by decide, by decide,
   (c3_fast_path_unguarded_amended
      ⟨true, some IState.wait_import, some FutKind.loadWorld, some 2, true,
        "/b/scene.usd", "/World/env", false⟩ ⟨"/ext", []⟩ [] rfl (by decide) (by decide)).1⟩

/-- Counterexample for claim C1 as stated: while a state-machine job is
active, a call to the programmatic `import_matterport_asset` entry
point is not rejected and is no no-op: the function takes no extension
state at all — it cannot observe `_import_running` — and performs the
full import, creating and touching a simulation instance and mutating
the stage. -/
theorem c1_counterexample :
    (⟨true, some IState.wait_reset, some FutKind.resetSim, some 3, true,
        "scene.obj", "/World/terrain", false⟩ : ExtState).running = true
    ∧ (importMatterportAssetAsync "/World/other" "room.usd" false true none
        ⟨true, 0, ""⟩ ⟨[], [], false⟩).outcome = Except.ok (matterportChild "/World/other")
    ∧ (importMatterportAssetAsync "/World/other" "room.usd" false true none
        ⟨true, 0, ""⟩ ⟨[], [], false⟩).eff.simCreated = true
    ∧ (importMatterportAssetAsync "/World/other" "room.usd" false true none
        ⟨true, 0, ""⟩ ⟨[], [], false⟩).world.stage ≠ ([] : Stage) :=
  ⟨rfl, by decide, by decide, by decide⟩

/-- Claim C1 (amended): the single-active-job guard covers exactly the
state-machine path of `_start_import`: while a job is running, a second
`_start_import` call whose (non-empty) source does not resolve to a
`.usd` file is rejected as a no-op — no new job is started or queued,
the stage is untouched, and the active job's current state, pending
future and simulation handle are unchanged (only the resolved
`_input_file` may be rewritten).  The `.usd` fast path and the
programmatic `import_matterport_asset` entry point are not covered by
this guard. -/
theorem c1_reentrancy_guard_amended (s : ExtState) (env : StartEnv) (stage : Stage)
    (hrun : s.running = true) (h0 : ¬ s.inputFile = "")
    (husd : ¬ strEndsWith (lowerStr (resolveStart s.inputFile env)) ".usd" = true) :
    startImport s env stage
      = ({ s with inputFile := resolveStart s.inputFile env }, stage,
          StartOutcome.rejected) := by
  simp [startImport, h0, husd, hrun]

/-- Witness for C1 (amended) at a concrete active job and `.obj`
source. -/
theorem c1_reentrancy_guard_witness :
    (⟨true, some IState.wait_init, some FutKind.initSim, some 1, false,
        "scene.obj", "/World/terrain", false⟩ : ExtState).running = true
    ∧ ¬ ((⟨true, some IState.wait_init, some FutKind.initSim, some 1, false,
        "scene.obj", "/World/terrain", false⟩ : ExtState).inputFile = "")
    ∧ ¬ strEndsWith (lowerStr (resolveStart "scene.obj" ⟨"/ext", []⟩)) ".usd" = true
    ∧ startImport ⟨true, some IState.wait_init, some FutKind.initSim, some 1, false,
        "scene.obj", "/World/terrain", false⟩ ⟨"/ext", []⟩ []
      = ({ (⟨true, some IState.wait_init, some FutKind.initSim, some 1, false,
            "scene.obj", "/World/terrain", false⟩ : ExtState) with
            inputFile := resolveStart "scene.obj" ⟨"/ext", []⟩ }, ([] : Stage),
          StartOutcome.rejected) :=
  ⟨rfl, by decide, by decide,
   c1_reentrancy_guard_amended
      ⟨true, some IState.wait_init, some FutKind.initSim, some 1, false,
        "scene.obj", "/World/terrain", false⟩ ⟨"/ext", []⟩ [] rfl (by decide) (by decide)⟩

end Matterport
